import Mathlib

/-!
Shallow embedding of the qanchor-lang account constraint validation and
instruction dispatch engine.

Sources embedded:
- `src/qanchor-lang/src/context.rs` — `AccountInfo`, `Context`,
  `try_deserialize`, `try_serialize`;
- `src/qanchor-lang/src/error.rs` — `ErrorCode` and its numeric codes;
- `src/qanchor-lang/src/accounts.rs` — the typed wrappers `Account`,
  `Signer`, `Program` and their `try_from` constructors;
- `src/qanchor-lang-derive/src/accounts_macro.rs` — the code shape that
  `#[derive(Accounts)]` generates for `try_accounts` (per-field cursor
  pull + constraint checks, then per-field wrapper assignment);
- `src/qanchor-lang/src/program.rs` — `InstructionDispatcher::dispatch`,
  `InstructionDispatcher::parse_accounts`, `InstructionParams::extract`;
- `src/qanchor-lang-derive/src/program_macro.rs` — the generated
  `ProgramEntry::execute` (decode instruction, then bind, then handler).

Modelling conventions: 32-byte identifiers (`[u8; 32]`) are compared only
for equality in the embedded code, so they are modelled as `Nat`; bytes
are `Nat`; the serde_json codec is an external collaborator and is passed
in as an explicit pair of functions (`ser`, `de`), with `Option` marking
its failure.
-/

namespace QAnchor

/-- One byte of an account data buffer (`u8` in the source). -/
abbrev Byte := Nat

/-- A 32-byte identifier (`[u8; 32]` in the source); the embedded code only
compares these for equality, so the model packs them into a `Nat`. -/
abbrev Addr := Nat

/-- Account information from the host runtime
(`AccountInfo` in `src/qanchor-lang/src/context.rs`, lines 52-66). -/
structure AccountInfo where
  key : Addr
  is_signer : Bool
  is_writable : Bool
  data : List Byte
  balance : Nat
  owner : Addr
deriving Repr, DecidableEq

/-- Error taxonomy (`ErrorCode` in `src/qanchor-lang/src/error.rs`). -/
inductive ErrorCode where
  | AccountDidNotDeserialize
  | AccountDidNotSerialize
  | AccountNotMutable
  | AccountNotSigner
  | AccountReallocExceeded
  | InvalidProgramId
  | AccountNotFound
  | AccountAlreadyExists
  | InsufficientBalance
  | AccountSizeMismatch
  | InvalidAccountOwner
  | ConstraintViolation
  | ConstraintInit
  | ConstraintMut
  | ConstraintSigner
  | ConstraintOwner
  | ConstraintCustom
  | ConstraintSpace
  | ProgramNotFound
  | InvalidInstructionData
  | InstructionNotFound
  | ProgramExecutionFailed
  | ProgramUpgradeFailed
  | ProgramNotUpgradeable
  | InvalidSignature
  | InvalidTransaction
  | InvalidAccountData
  | InsufficientAccounts
  | TooManyAccounts
  | ArithmeticOverflow
  | DivisionByZero
  | InvalidCalculation
  | SystemError
  | MemoryAllocationFailed
  | ResourceLimitExceeded
  | Timeout
  | Custom
deriving Repr, DecidableEq

/-- Numeric discriminants of the error taxonomy
(the `#[repr(u32)]` values in `src/qanchor-lang/src/error.rs`). -/
def ErrorCode.code : ErrorCode → Nat
  | .AccountDidNotDeserialize => 1000
  | .AccountDidNotSerialize => 1001
  | .AccountNotMutable => 1002
  | .AccountNotSigner => 1003
  | .AccountReallocExceeded => 1004
  | .InvalidProgramId => 1005
  | .AccountNotFound => 1006
  | .AccountAlreadyExists => 1007
  | .InsufficientBalance => 1008
  | .AccountSizeMismatch => 1009
  | .InvalidAccountOwner => 1010
  | .ConstraintViolation => 2000
  | .ConstraintInit => 2001
  | .ConstraintMut => 2002
  | .ConstraintSigner => 2003
  | .ConstraintOwner => 2004
  | .ConstraintCustom => 2005
  | .ConstraintSpace => 2006
  | .ProgramNotFound => 3000
  | .InvalidInstructionData => 3001
  | .InstructionNotFound => 3002
  | .ProgramExecutionFailed => 3003
  | .ProgramUpgradeFailed => 3004
  | .ProgramNotUpgradeable => 3005
  | .InvalidSignature => 4000
  | .InvalidTransaction => 4001
  | .InvalidAccountData => 4002
  | .InsufficientAccounts => 4003
  | .TooManyAccounts => 4004
  | .ArithmeticOverflow => 5000
  | .DivisionByZero => 5001
  | .InvalidCalculation => 5002
  | .SystemError => 6000
  | .MemoryAllocationFailed => 6001
  | .ResourceLimitExceeded => 6002
  | .Timeout => 6003
  | .Custom => 10000

variable {P I : Type}

/-- `AccountInfo::try_deserialize` (`src/qanchor-lang/src/context.rs`,
lines 94-100): run the external serde_json decoder on the whole data
buffer, mapping its failure to `AccountDidNotDeserialize`. -/
def AccountInfo.try_deserialize (de : List Byte → Option P) (self : AccountInfo) :
    Except ErrorCode P :=
  match de self.data with
  | some v => .ok v
  | none => .error .AccountDidNotDeserialize

/-- `AccountInfo::try_serialize` (`src/qanchor-lang/src/context.rs`,
lines 103-120): refuse when not writable, serialize via the external
codec, refuse when the result exceeds the current buffer length, else
copy into the buffer prefix (`self.data[..serialized.len()]`), leaving
the rest of the buffer unchanged. Returns the updated record. -/
def AccountInfo.try_serialize (ser : P → Option (List Byte)) (self : AccountInfo)
    (d : P) : Except ErrorCode AccountInfo :=
  if !self.is_writable then
    .error .AccountNotMutable
  else
    match ser d with
    | none => .error .AccountDidNotSerialize
    | some serialized =>
      if serialized.length > self.data.length then
        .error .AccountReallocExceeded
      else
        .ok { self with data := serialized ++ self.data.drop serialized.length }

/-- Data-account wrapper (`Account` in `src/qanchor-lang/src/accounts.rs`,
lines 33-38). -/
structure Account (P : Type) where
  account_info : AccountInfo
  data : P
deriving Repr, DecidableEq

/-- `Account::try_from` (`src/qanchor-lang/src/accounts.rs`, lines 45-48). -/
def Account.try_from (de : List Byte → Option P) (account_info : AccountInfo) :
    Except ErrorCode (Account P) :=
  match account_info.try_deserialize de with
  | .ok data => .ok { account_info, data }
  | .error e => .error e

/-- Signer wrapper (`Signer` in `src/qanchor-lang/src/accounts.rs`,
lines 89-92). -/
structure Signer where
  account_info : AccountInfo
deriving Repr, DecidableEq

/-- `Signer::try_from` (`src/qanchor-lang/src/accounts.rs`, lines 96-101). -/
def Signer.try_from (account_info : AccountInfo) : Except ErrorCode Signer :=
  if !account_info.is_signer then
    .error .AccountNotSigner
  else
    .ok { account_info }

/-- Program-reference wrapper (`Program` in
`src/qanchor-lang/src/accounts.rs`, lines 121-125); the phantom type
parameter of the source is erased, its resolved `program_id` is passed
to `try_from` explicitly. -/
structure Program where
  account_info : AccountInfo
deriving Repr, DecidableEq

/-- `Program::try_from` (`src/qanchor-lang/src/accounts.rs`, lines
132-140): compares the record's `key` against `T::program_id()`. -/
def Program.try_from (program_id : Addr) (account_info : AccountInfo) :
    Except ErrorCode Program :=
  if account_info.key ≠ program_id then
    .error .InvalidProgramId
  else
    .ok { account_info }

/-- `System::program_id` (`src/qanchor-lang/src/accounts.rs`, lines
161-165): the all-zero 32-byte identifier. -/
def System.program_id : Addr := 0

/-- Constraint model parsed by the derive macro (`AccountConstraint` in
`src/qanchor-lang-derive/src/accounts_macro.rs`, lines 251-260). The
source's `Owner` carries the identifier of a sibling field; the generated
check compares against that field's `.key()`, so the model carries the
resolved 32-byte address directly. -/
inductive AccountConstraint where
  | Init
  | Mut
  | Signer
  | Payer (payer : String)
  | Space (space : Nat)
  | Owner (owner : Addr)
deriving Repr, DecidableEq

/-- One declared constraint check against the pulled record: the code
emitted per constraint by `generate_field_validation`
(`src/qanchor-lang-derive/src/accounts_macro.rs`, lines 149-187).
`Payer` falls into the macro's catch-all arm that emits no check. -/
def validateConstraint (r : AccountInfo) : AccountConstraint → Option ErrorCode
  | .Mut => if !r.is_writable then some .ConstraintMut else none
  | .Signer => if !r.is_signer then some .ConstraintSigner else none
  | .Init => if r.data.length > 0 then some .AccountAlreadyExists else none
  | .Owner owner => if r.owner ≠ owner then some .ConstraintOwner else none
  | .Space space => if r.data.length < space then some .ConstraintSpace else none
  | .Payer _ => none

/-- The constraint checks of one field, emitted in declared order with an
early return on the first failure (`generate_field_validation`, loop at
lines 149-187). -/
def validateConstraints (r : AccountInfo) : List AccountConstraint → Option ErrorCode
  | [] => none
  | c :: cs =>
    match validateConstraint r c with
    | some e => some e
    | none => validateConstraints r cs

/-- Which wrapper the field assignment constructs, decided by the field's
declared type (`generate_field_assignment` together with
`is_account_type` / `is_signer_type` / `is_program_type`,
`src/qanchor-lang-derive/src/accounts_macro.rs`, lines 193-248). For a
program field the phantom type's resolved `program_id` is carried here. -/
inductive AccountKind where
  | account
  | signer
  | program (program_id : Addr)
  | raw
deriving Repr, DecidableEq

/-- One expected account slot of a `#[derive(Accounts)]` struct: its
declared constraint list (in declaration order) and its field type. -/
structure Slot where
  constraints : List AccountConstraint
  kind : AccountKind
deriving Repr, DecidableEq

/-- The typed bindings a successful `try_accounts` produces, one per
field of the derived struct (`generate_field_assignment`). -/
inductive Wrapper (P : Type) where
  | account (a : Account P)
  | signer (s : Signer)
  | program (p : Program)
  | raw (info : AccountInfo)
deriving Repr, DecidableEq

/-- Validation phase of the generated `try_accounts`: for each field in
declaration order, pull the next record from the cursor
(`accounts.next().ok_or(InsufficientAccounts)?`,
`src/qanchor-lang-derive/src/accounts_macro.rs`, lines 143-146), then run
its constraint checks in declared order. Returns the pulled records
paired with their slots, and the records left in the cursor. -/
def validatePhase : List Slot → List AccountInfo →
    Except ErrorCode (List (Slot × AccountInfo) × List AccountInfo)
  | [], recs => .ok ([], recs)
  | _ :: _, [] => .error .InsufficientAccounts
  | s :: ss, r :: rs =>
    match validateConstraints r s.constraints with
    | some e => .error e
    | none =>
      match validatePhase ss rs with
      | .error e => .error e
      | .ok (pulled, leftover) => .ok ((s, r) :: pulled, leftover)

/-- One field assignment of the generated `Ok(Self { .. })`
(`generate_field_assignment`, lines 200-217): construct the wrapper
matching the field's type from the record pulled for that field. -/
def assignField (de : List Byte → Option P) (s : Slot) (r : AccountInfo) :
    Except ErrorCode (Wrapper P) :=
  match s.kind with
  | .account =>
    match Account.try_from de r with
    | .ok a => .ok (.account a)
    | .error e => .error e
  | .signer =>
    match Signer.try_from r with
    | .ok sg => .ok (.signer sg)
    | .error e => .error e
  | .program program_id =>
    match Program.try_from program_id r with
    | .ok p => .ok (.program p)
    | .error e => .error e
  | .raw => .ok (.raw r)

/-- Assignment phase of the generated `try_accounts`: the field
assignments of `Ok(Self { .. })` run in declaration order, each with `?`
propagation. -/
def assignPhase (de : List Byte → Option P) :
    List (Slot × AccountInfo) → Except ErrorCode (List (Wrapper P))
  | [] => .ok []
  | (s, r) :: rest =>
    match assignField de s r with
    | .error e => .error e
    | .ok w =>
      match assignPhase de rest with
      | .error e => .error e
      | .ok ws => .ok (w :: ws)

/-- The generated `try_accounts` (`expand_accounts`,
`src/qanchor-lang-derive/src/accounts_macro.rs`, lines 55-68): all field
validations first (`#(#field_validations)*`), then all field assignments
(`Ok(Self { #(#field_assignments)* })`). Records left in the cursor after
the validation phase are dropped. -/
def try_accounts (de : List Byte → Option P) (slots : List Slot)
    (accounts : List AccountInfo) : Except ErrorCode (List (Wrapper P)) :=
  match validatePhase slots accounts with
  | .error e => .error e
  | .ok (pulled, _leftover) => assignPhase de pulled

/-- Execution context handed to a handler (`Context` in
`src/qanchor-lang/src/context.rs`, lines 23-31). -/
structure Context (P : Type) where
  accounts : List (Wrapper P)
  program_id : Addr
  remaining_accounts : List AccountInfo
deriving Repr, DecidableEq

/-- `Context::new` (`src/qanchor-lang/src/context.rs`, lines 35-46). -/
def Context.new (accounts : List (Wrapper P)) (program_id : Addr)
    (remaining_accounts : List AccountInfo) : Context P :=
  { accounts, program_id, remaining_accounts }

/-- `InstructionDispatcher::parse_accounts`
(`src/qanchor-lang/src/program.rs`, lines 55-60): returns the whole
account list as the accounts to validate and an empty remaining list. -/
def InstructionDispatcher.parse_accounts (accounts : List AccountInfo) :
    Except ErrorCode (List AccountInfo × List AccountInfo) :=
  .ok (accounts, [])

/-- Body of `InstructionDispatcher::dispatch` up to the context it builds
(`src/qanchor-lang/src/program.rs`, lines 27-48): split the accounts via
`parse_accounts`, bind via `try_accounts`, build the `Context`. The
instruction data parameter is unused in the source (`_instruction_data`). -/
def InstructionDispatcher.dispatchContext (de : List Byte → Option P)
    (program_id : Addr) (accounts : List AccountInfo)
    (_instruction_data : List Byte) (slots : List Slot) :
    Except ErrorCode (Context P) :=
  match InstructionDispatcher.parse_accounts accounts with
  | .error e => .error e
  | .ok (accounts_data, remaining_accounts) =>
    match try_accounts de slots accounts_data with
    | .error e => .error e
    | .ok validated_accounts =>
      .ok (Context.new validated_accounts program_id remaining_accounts)

/-- `InstructionDispatcher::dispatch` (`src/qanchor-lang/src/program.rs`,
lines 27-52): build the context, then invoke the handler on it. -/
def InstructionDispatcher.dispatch (de : List Byte → Option P)
    (program_id : Addr) (accounts : List AccountInfo)
    (instruction_data : List Byte) (slots : List Slot)
    (handler : Context P → Except ErrorCode Unit) : Except ErrorCode Unit :=
  match InstructionDispatcher.dispatchContext de program_id accounts
      instruction_data slots with
  | .error e => .error e
  | .ok ctx => handler ctx

/-- State-threading embedding of `InstructionDispatcher::dispatch`, where
the list of account records is the mutable state the Rust code borrows:
the validation and binding code performs no writes to the records (it
only reads fields, visible in `generate_field_validation` and the
`try_from` constructors), so the state reaches the handler unchanged and
only the handler may change it. -/
def InstructionDispatcher.dispatchSt (de : List Byte → Option P)
    (program_id : Addr) (accounts : List AccountInfo)
    (instruction_data : List Byte) (slots : List Slot)
    (handler : Context P → List AccountInfo →
      Except ErrorCode Unit × List AccountInfo) :
    Except ErrorCode Unit × List AccountInfo :=
  match InstructionDispatcher.dispatchContext de program_id accounts
      instruction_data slots with
  | .error e => (.error e, accounts)
  | .ok ctx => handler ctx accounts

/-- `InstructionParams::extract` (`src/qanchor-lang/src/program.rs`,
lines 82-91): run the external serde_json decoder on the raw instruction
bytes, mapping its failure to `InvalidInstructionData`. -/
def InstructionParams.extract (decode : List Byte → Option I)
    (instruction_data : List Byte) : Except ErrorCode I :=
  match decode instruction_data with
  | some v => .ok v
  | none => .error .InvalidInstructionData

/-- The generated `ProgramEntry::execute`
(`src/qanchor-lang-derive/src/program_macro.rs`, lines 66-81 and
168-198): decode the instruction bytes into the tagged instruction value
via `InstructionParams::extract` with `?` propagation, then for the
selected variant bind the accounts declared by that handler's schema
(with `remaining_accounts` passed as `&[]`) and invoke the handler. -/
def ProgramEntry.execute (de : List Byte → Option P)
    (decode : List Byte → Option I) (schema : I → List Slot)
    (handlers : I → Context P → Except ErrorCode Unit)
    (program_id : Addr) (accounts : List AccountInfo)
    (instruction_data : List Byte) : Except ErrorCode Unit :=
  match InstructionParams.extract decode instruction_data with
  | .error e => .error e
  | .ok instruction =>
    match try_accounts de (schema instruction) accounts with
    | .error e => .error e
    | .ok validated_accounts =>
      handlers instruction (Context.new validated_accounts program_id [])

/-- First violated constraint in declared slot-and-constraint order, the
reference order the spec describes in section 4.1 (walk the slots in
declared order, pair each with the next record, and report the first
constraint whose predicate fails); written from the spec's words to be
compared with the generated `try_accounts`. -/
def firstViolation : List Slot → List AccountInfo → Option ErrorCode
  | [], _ => none
  | _ :: _, [] => none
  | s :: ss, r :: rs =>
    match validateConstraints r s.constraints with
    | some e => some e
    | none => firstViolation ss rs

/-- Concrete instance of the external structured-serialization
collaborator for natural-number payloads, mirroring serde_json in the
source: `to_vec` emits the decimal digit string of the number and
`from_slice` parses the entire buffer as one number (serde_json consumes
the whole slice, so digit bytes left over in the buffer become part of
the parsed number). -/
def serNat (n : Nat) : Option (List Byte) :=
  some ((Nat.toDigits 10 n).map Char.toNat)

/-- Value of one ASCII decimal digit byte. -/
def digitVal (b : Byte) : Option Nat :=
  if 48 ≤ b ∧ b ≤ 57 then some (b - 48) else none

/-- Whole-buffer decimal parse, the counterpart of `serNat`; fails on an
empty buffer or any non-digit byte, exactly as serde_json fails unless
the entire slice is one valid document. -/
def deNat (bs : List Byte) : Option Nat :=
  if bs.isEmpty then none
  else bs.foldl (fun acc b => acc.bind fun a => (digitVal b).map fun d => a * 10 + d)
    (some 0)

/-- The validation phase returns the first violated constraint's error:
lifting `firstViolation` (spec order) to the generated validation code. -/
lemma validatePhase_error_of_firstViolation :
    ∀ (slots : List Slot) (recs : List AccountInfo) (e : ErrorCode),
    firstViolation slots recs = some e → validatePhase slots recs = .error e := by
  intro slots
  induction slots with
  | nil =>
    intro recs e h
    simp [firstViolation] at h
  | cons s ss ih =>
    intro recs e h
    cases recs with
    | nil => simp [firstViolation] at h
    | cons r rs =>
      rw [firstViolation] at h
      cases hv : validateConstraints r s.constraints with
      | some e1 =>
        rw [hv] at h
        simp at h
        subst h
        rw [validatePhase, hv]
      | none =>
        rw [hv] at h
        simp at h
        rw [validatePhase, hv, ih rs e h]

/-- When the cursor is shorter than the slot list and every paired slot
passes its constraints, the validation phase fails with insufficient
accounts at the exhaustion point. -/
lemma validatePhase_insufficient :
    ∀ (slots : List Slot) (recs : List AccountInfo),
    recs.length < slots.length →
    (∀ p ∈ slots.zip recs, validateConstraints p.2 p.1.constraints = none) →
    validatePhase slots recs = .error .InsufficientAccounts := by
  intro slots
  induction slots with
  | nil =>
    intro recs hlen _
    exact absurd hlen (Nat.not_lt_zero _)
  | cons s ss ih =>
    intro recs hlen hpass
    cases recs with
    | nil => rw [validatePhase]
    | cons r rs =>
      have hr : validateConstraints r s.constraints = none :=
        hpass (s, r) (by simp [List.zip_cons_cons])
      have hrs : validatePhase ss rs = .error .InsufficientAccounts := by
        refine ih rs (Nat.lt_of_succ_lt_succ hlen) ?_
        intro p hp
        exact hpass p (by simp [List.zip_cons_cons, hp])
      rw [validatePhase, hr, hrs]

/-- A successful validation phase returns exactly the input records,
split into the pulled prefix (in order, each record unmodified) and the
leftover suffix. -/
lemma validatePhase_ok_pulled :
    ∀ (slots : List Slot) (recs : List AccountInfo)
      (pulled : List (Slot × AccountInfo)) (leftover : List AccountInfo),
    validatePhase slots recs = .ok (pulled, leftover) →
    pulled.map Prod.snd ++ leftover = recs := by
  intro slots
  induction slots with
  | nil =>
    intro recs pulled leftover h
    rw [validatePhase] at h
    cases h
    rfl
  | cons s ss ih =>
    intro recs pulled leftover h
    cases recs with
    | nil => rw [validatePhase] at h; cases h
    | cons r rs =>
      rw [validatePhase] at h
      cases hv : validateConstraints r s.constraints with
      | some e1 => rw [hv] at h; cases h
      | none =>
        rw [hv] at h
        cases hrec : validatePhase ss rs with
        | error e1 => rw [hrec] at h; cases h
        | ok pr =>
          obtain ⟨pulled1, leftover1⟩ := pr
          rw [hrec] at h
          cases h
          simp [ih rs pulled1 _ hrec]

/-- Claim C1, counterexample: binding one expected slot (N = 1) against
two account records (M = 2) validates successfully and the cursor holds
one leftover record, yet the context the dispatcher builds carries an
empty `remaining_accounts`, not the leftover suffix of length M - N = 1. -/
theorem dispatch_remaining_accounts_cex :
    validatePhase [⟨[], .raw⟩]
      [⟨1, false, false, [], 0, 0⟩, ⟨2, false, false, [], 0, 0⟩]
      = .ok ([(⟨[], .raw⟩, ⟨1, false, false, [], 0, 0⟩)],
        [⟨2, false, false, [], 0, 0⟩]) ∧
    InstructionDispatcher.dispatchContext (fun _ => (none : Option Nat)) 9
      [⟨1, false, false, [], 0, 0⟩, ⟨2, false, false, [], 0, 0⟩] [] [⟨[], .raw⟩]
      = .ok (Context.new [Wrapper.raw ⟨1, false, false, [], 0, 0⟩] 9 []) ∧
    ([] : List AccountInfo) ≠ [⟨2, false, false, [], 0, 0⟩] :=
  ⟨rfl, rfl, by simp⟩

/-- Claim C1, amended: the dispatcher never exposes leftover accounts:
`parse_accounts` hands the whole list to validation and always passes an
empty `remaining_accounts`, so every context a handler receives has
`remaining_accounts = []`, regardless of how many accounts exceed the
declared slot count. -/
theorem dispatch_remaining_accounts_empty {P : Type} (de : List Byte → Option P)
    (program_id : Addr) (accounts : List AccountInfo) (d : List Byte)
    (slots : List Slot) (ctx : Context P)
    (h : InstructionDispatcher.dispatchContext de program_id accounts d slots
      = .ok ctx) :
    ctx.remaining_accounts = [] := by
  have h2 : (match try_accounts de slots accounts with
    | .error e => (.error e : Except ErrorCode (Context P))
    | .ok v => .ok (Context.new v program_id [])) = .ok ctx := h
  cases hta : try_accounts de slots accounts with
  | error e => rw [hta] at h2; cases h2
  | ok v =>
    rw [hta] at h2
    cases h2
    rfl

/-- Witness for `dispatch_remaining_accounts_empty` at a concrete
successful dispatch. -/
theorem dispatch_remaining_accounts_empty_w :
    InstructionDispatcher.dispatchContext (fun _ => (none : Option Nat)) 9
      [⟨1, false, false, [], 0, 0⟩, ⟨2, false, false, [], 0, 0⟩] [] [⟨[], .raw⟩]
      = .ok (Context.new [Wrapper.raw ⟨1, false, false, [], 0, 0⟩] 9 []) ∧
    (Context.new [Wrapper.raw ⟨1, false, false, [], 0, 0⟩] 9
      ([] : List AccountInfo) : Context Nat).remaining_accounts = [] :=
  ⟨rfl, dispatch_remaining_accounts_empty (fun _ => (none : Option Nat)) 9
    [⟨1, false, false, [], 0, 0⟩, ⟨2, false, false, [], 0, 0⟩] [] [⟨[], .raw⟩]
    _ rfl⟩

/-- Claim C2, counterexample: a record whose `owner` equals the resolved
program address but whose `key` differs is rejected with
`InvalidProgramId`, and a record whose `key` equals the address but whose
`owner` differs is accepted: `Program::try_from` consults `key`, not
`owner`. -/
theorem program_try_from_owner_cex :
    (AccountInfo.mk 3 false false [] 0 7).owner = 7 ∧
    Program.try_from 7 ⟨3, false, false, [], 0, 7⟩ = .error .InvalidProgramId ∧
    (AccountInfo.mk 7 false false [] 0 1).owner ≠ 7 ∧
    Program.try_from 7 ⟨7, false, false, [], 0, 1⟩
      = .ok ⟨⟨7, false, false, [], 0, 1⟩⟩ :=
  ⟨rfl, rfl, by decide, rfl⟩

/-- Claim C2, amended: constructing a program-reference wrapper succeeds
exactly when the record's `key` equals the referenced program's resolved
32-byte address, and fails with `InvalidProgramId` (1005, distinct from
the `ConstraintOwner` code 2004 used for data-account owner checks) when
the key differs; the `owner` field is not consulted. -/
theorem program_try_from_key_check (program_id : Addr) (r : AccountInfo) :
    (Program.try_from program_id r = .ok ⟨r⟩ ↔ r.key = program_id) ∧
    (Program.try_from program_id r = .error .InvalidProgramId ↔
      r.key ≠ program_id) ∧
    ErrorCode.InvalidProgramId.code = 1005 ∧
    ErrorCode.ConstraintOwner.code = 2004 ∧
    ErrorCode.InvalidProgramId.code ≠ ErrorCode.ConstraintOwner.code := by
  refine ⟨?_, ?_, rfl, rfl, by decide⟩ <;>
    by_cases hk : r.key = program_id <;> simp [Program.try_from, hk]

/-- Claim C3 (confirmed): each declared constraint fails with its
specific stable code exactly when its predicate is violated — `Mut` with
`ConstraintMut` (2002) iff `is_writable` is false, `Signer` with
`ConstraintSigner` (2003) iff `is_signer` is false, `Owner` with
`ConstraintOwner` (2004) iff the record's owner differs from the
resolved reference, `Space n` with `ConstraintSpace` (2006) iff
`data.len() < n`; a buffer of exactly length n passes `Space n` and a
buffer of length n fails `Space (n+1)` (equivalently, length n - 1 fails
`Space n`). -/
theorem constraint_codes_exact (r : AccountInfo) (n : Nat) (a : Addr) :
    (validateConstraint r .Mut = some .ConstraintMut ↔ r.is_writable = false) ∧
    (validateConstraint r .Mut = none ↔ r.is_writable = true) ∧
    (validateConstraint r .Signer = some .ConstraintSigner ↔ r.is_signer = false) ∧
    (validateConstraint r (.Owner a) = some .ConstraintOwner ↔ r.owner ≠ a) ∧
    (validateConstraint r (.Owner a) = none ↔ r.owner = a) ∧
    (validateConstraint r (.Space n) = some .ConstraintSpace ↔ r.data.length < n) ∧
    (validateConstraint r (.Space n) = none ↔ n ≤ r.data.length) ∧
    validateConstraint r (.Space r.data.length) = none ∧
    validateConstraint r (.Space (r.data.length + 1)) = some .ConstraintSpace ∧
    ErrorCode.ConstraintMut.code = 2002 ∧
    ErrorCode.ConstraintSigner.code = 2003 ∧
    ErrorCode.ConstraintOwner.code = 2004 ∧
    ErrorCode.ConstraintSpace.code = 2006 := by
  refine ⟨?_, ?_, ?_, ?_, ?_, ?_, ?_, ?_, ?_, rfl, rfl, rfl, rfl⟩
  · cases hw : r.is_writable <;> simp [validateConstraint, hw]
  · cases hw : r.is_writable <;> simp [validateConstraint, hw]
  · cases hs : r.is_signer <;> simp [validateConstraint, hs]
  · by_cases ho : r.owner = a <;> simp [validateConstraint, ho]
  · by_cases ho : r.owner = a <;> simp [validateConstraint, ho]
  · by_cases hn : r.data.length < n <;> simp [validateConstraint, hn]
  · by_cases hn : r.data.length < n
    · simp [validateConstraint, hn]
    · simp [validateConstraint, hn]
      omega
  · simp [validateConstraint]
  · simp [validateConstraint]

/-- Claim C4 (confirmed): validation is all-or-nothing and
order-determined — whenever the declared slot-and-constraint order has a
first violated constraint, the whole bind returns exactly that
constraint's error, no wrapper list is produced, and for every handler
the stateful dispatch returns that error with the account records
unchanged (the handler is never consulted). -/
theorem bind_first_violation_determines {P : Type} (de : List Byte → Option P)
    (slots : List Slot) (recs : List AccountInfo) (e : ErrorCode)
    (h : firstViolation slots recs = some e) :
    try_accounts de slots recs = .error e ∧
    ∀ (program_id : Addr) (d : List Byte)
      (handler : Context P → List AccountInfo →
        Except ErrorCode Unit × List AccountInfo),
      InstructionDispatcher.dispatchSt de program_id recs d slots handler
        = (.error e, recs) := by
  have hv := validatePhase_error_of_firstViolation slots recs e h
  have hta : try_accounts de slots recs = .error e := by
    unfold try_accounts
    rw [hv]
  refine ⟨hta, ?_⟩
  intro program_id d handler
  have hctx : InstructionDispatcher.dispatchContext de program_id recs d slots
      = (.error e : Except ErrorCode (Context P)) := by
    have h3 : (match try_accounts de slots recs with
      | .error e1 => (.error e1 : Except ErrorCode (Context P))
      | .ok v => .ok (Context.new v program_id [])) = .error e := by rw [hta]
    exact h3
  unfold InstructionDispatcher.dispatchSt
  rw [hctx]

/-- Witness for `bind_first_violation_determines`: one slot declaring
`Signer` bound to a non-signer record. -/
theorem bind_first_violation_determines_w :
    firstViolation [⟨[.Signer], .raw⟩] [⟨1, false, true, [], 0, 0⟩]
      = some .ConstraintSigner ∧
    try_accounts (fun _ => (none : Option Nat)) [⟨[.Signer], .raw⟩]
      [⟨1, false, true, [], 0, 0⟩] = .error .ConstraintSigner ∧
    InstructionDispatcher.dispatchSt (fun _ => (none : Option Nat)) 0
      [⟨1, false, true, [], 0, 0⟩] [] [⟨[.Signer], .raw⟩]
      (fun _ s => (.ok (), s))
      = (.error .ConstraintSigner, [⟨1, false, true, [], 0, 0⟩]) := by
  have h := bind_first_violation_determines (fun _ => (none : Option Nat))
    [⟨[.Signer], .raw⟩] [⟨1, false, true, [], 0, 0⟩] .ConstraintSigner rfl
  exact ⟨rfl, h.1, h.2 0 [] (fun _ s => (.ok (), s))⟩

/-- Claim C5 (confirmed): the `Init` constraint fails with
`AccountAlreadyExists` exactly when the record's data buffer is
non-empty, and evaluating it is read-only — the validation phase returns
every input record unchanged (key, flags, data, balance, owner), whether
the records it pulled passed or the bind later fails. -/
theorem init_check_read_only :
    (∀ r : AccountInfo,
      (validateConstraint r .Init = some .AccountAlreadyExists ↔
        0 < r.data.length) ∧
      (validateConstraint r .Init = none ↔ r.data.length = 0)) ∧
    (∀ (slots : List Slot) (recs : List AccountInfo)
      (pulled : List (Slot × AccountInfo)) (leftover : List AccountInfo),
      validatePhase slots recs = .ok (pulled, leftover) →
      pulled.map Prod.snd ++ leftover = recs) := by
  constructor
  · intro r
    constructor
    · simp only [validateConstraint]
      by_cases h0 : r.data.length > 0
      · rw [if_pos h0]
        simp [h0]
      · rw [if_neg h0]
        constructor
        · intro hc
          cases hc
        · intro hc
          exact absurd hc h0
    · simp only [validateConstraint]
      by_cases h0 : r.data.length > 0
      · rw [if_pos h0]
        simp
        intro hnil
        rw [hnil] at h0
        simp at h0
      · rw [if_neg h0]
        simp
        exact List.length_eq_zero.mp (by omega)
  · exact validatePhase_ok_pulled

/-- Witness for `init_check_read_only`: an `Init` slot bound to an
empty-data record passes and the pulled record is the input record,
byte for byte. -/
theorem init_check_read_only_w :
    (validateConstraint ⟨1, false, false, [], 0, 0⟩ .Init = none ↔
      (AccountInfo.mk 1 false false [] 0 0).data.length = 0) ∧
    ([((⟨[.Init], .raw⟩ : Slot), (⟨1, false, false, [], 0, 0⟩ : AccountInfo))].map
      Prod.snd ++ [] = [⟨1, false, false, [], 0, 0⟩]) :=
  ⟨(init_check_read_only.1 ⟨1, false, false, [], 0, 0⟩).2,
   init_check_read_only.2 [⟨[.Init], .raw⟩] [⟨1, false, false, [], 0, 0⟩]
     [((⟨[.Init], .raw⟩ : Slot), (⟨1, false, false, [], 0, 0⟩ : AccountInfo))] [] rfl⟩

/-- Claim C6 (confirmed): for every payload and record, `try_serialize`
fails with `AccountNotMutable` whenever `is_writable` is false at write
time (checked first, before serialization, and independent of any
bind-time constraints, which `try_serialize` never sees), fails with
`AccountReallocExceeded` whenever the record is writable and the
serialized form is longer than the current buffer, and otherwise
succeeds, writing the serialized bytes over the buffer prefix. -/
theorem try_serialize_error_cases {P : Type} (ser : P → Option (List Byte))
    (p : P) (r : AccountInfo) :
    (r.is_writable = false →
      AccountInfo.try_serialize ser r p = .error .AccountNotMutable) ∧
    (∀ bs, ser p = some bs →
      (r.is_writable = true → r.data.length < bs.length →
        AccountInfo.try_serialize ser r p = .error .AccountReallocExceeded) ∧
      (r.is_writable = true → bs.length ≤ r.data.length →
        AccountInfo.try_serialize ser r p
          = .ok { r with data := bs ++ r.data.drop bs.length })) := by
  constructor
  · intro hw
    simp [AccountInfo.try_serialize, hw]
  · intro bs hbs
    constructor
    · intro hw hlen
      simp [AccountInfo.try_serialize, hw, hbs, hlen]
    · intro hw hlen
      simp [AccountInfo.try_serialize, hw, hbs, Nat.not_lt.mpr hlen]

/-- Witness for `try_serialize_error_cases`: all three outcomes at
concrete records with payload 5 under the decimal codec. -/
theorem try_serialize_error_cases_w :
    AccountInfo.try_serialize serNat ⟨1, false, false, [], 0, 0⟩ 5
      = .error .AccountNotMutable ∧
    AccountInfo.try_serialize serNat ⟨1, false, true, [], 0, 0⟩ 5
      = .error .AccountReallocExceeded ∧
    AccountInfo.try_serialize serNat ⟨1, false, true, [48], 0, 0⟩ 5
      = .ok { (⟨1, false, true, [48], 0, 0⟩ : AccountInfo) with
          data := [53] ++ ([48] : List Byte).drop 1 } :=
  ⟨(try_serialize_error_cases serNat 5 ⟨1, false, false, [], 0, 0⟩).1 rfl,
   ((try_serialize_error_cases serNat 5 ⟨1, false, true, [], 0, 0⟩).2 [53]
     (by decide)).1 rfl (by decide),
   ((try_serialize_error_cases serNat 5 ⟨1, false, true, [48], 0, 0⟩).2 [53]
     (by decide)).2 rfl (by decide)⟩

/-- Claim C7, counterexample: payload 5 serializes to the single digit
byte "5"; writing it into a writable two-byte buffer holding "00" (which
can hold the one-byte serialized form) leaves the stale second byte, and
deserializing through the data-account wrapper parses the whole buffer
"50" to the value 50, not the original 5 — round-trip fidelity fails on
a buffer strictly longer than the serialized form. -/
theorem roundtrip_cex :
    serNat 5 = some [53] ∧
    deNat [53] = some 5 ∧
    (AccountInfo.mk 1 false true [48, 48] 0 0).is_writable = true ∧
    AccountInfo.try_serialize serNat ⟨1, false, true, [48, 48], 0, 0⟩ 5
      = .ok ⟨1, false, true, [53, 48], 0, 0⟩ ∧
    Account.try_from deNat ⟨1, false, true, [53, 48], 0, 0⟩
      = .ok ⟨⟨1, false, true, [53, 48], 0, 0⟩, 50⟩ ∧
    (50 : Nat) ≠ 5 :=
  ⟨rfl, rfl, rfl, rfl, rfl, by decide⟩

/-- Claim C7, amended: round-trip fidelity holds when the writable
record's buffer length equals the serialized form's length exactly (so no
stale bytes survive): for every codec that decodes its own encoding,
serializing the payload and then deserializing through the data-account
wrapper returns the original payload. -/
theorem roundtrip_exact_length {P : Type} (ser : P → Option (List Byte))
    (de : List Byte → Option P) (p : P) (bs : List Byte) (r : AccountInfo)
    (hser : ser p = some bs) (hde : de bs = some p)
    (hw : r.is_writable = true) (hlen : r.data.length = bs.length) :
    AccountInfo.try_serialize ser r p = .ok { r with data := bs } ∧
    Account.try_from de { r with data := bs }
      = .ok ⟨{ r with data := bs }, p⟩ := by
  constructor
  · have hnlt : ¬ bs.length > r.data.length := by omega
    simp only [AccountInfo.try_serialize, hw, Bool.not_true, Bool.false_eq_true,
      if_false, hser, hnlt, if_false]
    rw [← hlen, List.drop_length, List.append_nil]
  · simp [Account.try_from, AccountInfo.try_deserialize, hde]

/-- Witness for `roundtrip_exact_length`: payload 7 into a one-byte
writable buffer under the decimal codec. -/
theorem roundtrip_exact_length_w :
    AccountInfo.try_serialize serNat ⟨1, false, true, [48], 0, 0⟩ 7
      = .ok { (⟨1, false, true, [48], 0, 0⟩ : AccountInfo) with data := [55] } ∧
    Account.try_from deNat
      { (⟨1, false, true, [48], 0, 0⟩ : AccountInfo) with data := [55] }
      = .ok ⟨{ (⟨1, false, true, [48], 0, 0⟩ : AccountInfo) with data := [55] }, 7⟩ :=
  roundtrip_exact_length serNat deNat 7 [55] ⟨1, false, true, [48], 0, 0⟩
    (by decide) (by decide) rfl rfl

/-- Claim C8, counterexample: two expected slots against one account
record (K = 1 < M = 2), where the first slot's `Mut` constraint fails on
the non-writable record: the bind fails with `ConstraintMut`, not with
`InsufficientAccounts`, so a bind with too few accounts does not always
fail with the insufficient-accounts error. -/
theorem insufficient_accounts_cex :
    ([⟨1, false, false, [], 0, 0⟩] : List AccountInfo).length
      < ([⟨[.Mut], .raw⟩, ⟨[], .raw⟩] : List Slot).length ∧
    try_accounts (fun _ => (none : Option Nat)) [⟨[.Mut], .raw⟩, ⟨[], .raw⟩]
      [⟨1, false, false, [], 0, 0⟩] = .error .ConstraintMut ∧
    ErrorCode.ConstraintMut ≠ ErrorCode.InsufficientAccounts :=
  ⟨by decide, rfl, by decide⟩

/-- Claim C8, amended: for every bind of M expected slots against K < M
account records in which each of the K paired slots passes its declared
constraints, the bind fails with `InsufficientAccounts` at the first slot
for which the cursor is exhausted (slot index K), whatever the slots past
that point declare. -/
theorem insufficient_accounts_first_exhaustion {P : Type}
    (de : List Byte → Option P) (slots : List Slot) (recs : List AccountInfo)
    (hlen : recs.length < slots.length)
    (hpass : ∀ p ∈ slots.zip recs, validateConstraints p.2 p.1.constraints = none) :
    try_accounts de slots recs = .error .InsufficientAccounts := by
  rw [try_accounts, validatePhase_insufficient slots recs hlen hpass]

/-- Witness for `insufficient_accounts_first_exhaustion`: two expected
slots, one writable record passing its `Mut` constraint. -/
theorem insufficient_accounts_first_exhaustion_w :
    ([⟨1, false, true, [], 0, 0⟩] : List AccountInfo).length
      < ([⟨[.Mut], .raw⟩, ⟨[], .raw⟩] : List Slot).length ∧
    try_accounts (fun _ => (none : Option Nat)) [⟨[.Mut], .raw⟩, ⟨[], .raw⟩]
      [⟨1, false, true, [], 0, 0⟩] = .error .InsufficientAccounts :=
  ⟨by decide, insufficient_accounts_first_exhaustion (fun _ => (none : Option Nat))
    [⟨[.Mut], .raw⟩, ⟨[], .raw⟩] [⟨1, false, true, [], 0, 0⟩]
    (by decide) (by decide)⟩

/-- Claim C9 (confirmed): the generated entry point first decodes the raw
instruction bytes into the tagged instruction value; when decoding fails,
execution returns `InvalidInstructionData` for every slot schema, every
handler and every account list — no account binding is attempted and no
handler is invoked. -/
theorem execute_decode_failure {P I : Type} (de : List Byte → Option P)
    (decode : List Byte → Option I) (schema : I → List Slot)
    (handlers : I → Context P → Except ErrorCode Unit)
    (program_id : Addr) (accounts : List AccountInfo) (d : List Byte)
    (h : decode d = none) :
    ProgramEntry.execute de decode schema handlers program_id accounts d
      = .error .InvalidInstructionData := by
  rw [ProgramEntry.execute, InstructionParams.extract, h]

/-- Witness for `execute_decode_failure`: an undecodable instruction over
an account list that would itself fail binding, still reported as
`InvalidInstructionData`. -/
theorem execute_decode_failure_w :
    (fun _ : List Byte => (none : Option Nat)) [1, 2, 3] = none ∧
    ProgramEntry.execute (fun _ => (none : Option Nat))
      (fun _ => (none : Option Nat)) (fun _ => [⟨[.Mut], .raw⟩])
      (fun _ _ => .ok ()) 0 [⟨1, false, false, [], 0, 0⟩] [1, 2, 3]
      = .error .InvalidInstructionData :=
  ⟨rfl, execute_decode_failure (fun _ => (none : Option Nat))
    (fun _ => (none : Option Nat)) (fun _ => [⟨[.Mut], .raw⟩])
    (fun _ _ => .ok ()) 0 [⟨1, false, false, [], 0, 0⟩] [1, 2, 3] rfl⟩

/-- Claim C10 (confirmed): the signer-only wrapper's constructor fails
with `AccountNotSigner` (code 1003, in the 1000s account-error range)
exactly when `is_signer` is false and succeeds otherwise, whereas the
declared signer constraint fails with `ConstraintSigner` (2003); the two
numeric codes differ, so which code a caller observes for an unsigned
account depends on which check rejected it. -/
theorem signer_wrapper_vs_constraint_codes (r : AccountInfo) :
    (Signer.try_from r = .error .AccountNotSigner ↔ r.is_signer = false) ∧
    (Signer.try_from r = .ok ⟨r⟩ ↔ r.is_signer = true) ∧
    (validateConstraint r .Signer = some .ConstraintSigner ↔ r.is_signer = false) ∧
    ErrorCode.AccountNotSigner.code = 1003 ∧
    1000 ≤ ErrorCode.AccountNotSigner.code ∧
    ErrorCode.AccountNotSigner.code < 2000 ∧
    ErrorCode.ConstraintSigner.code = 2003 ∧
    ErrorCode.AccountNotSigner.code ≠ ErrorCode.ConstraintSigner.code := by
  refine ⟨?_, ?_, ?_, rfl, by decide, by decide, rfl, by decide⟩ <;>
    cases hs : r.is_signer <;> simp [Signer.try_from, validateConstraint, hs]

end QAnchor

